import Mathlib

/-!
Verification of the OpenClawPlus cerebellum routing engine (task evaluator,
dual-kernel router, stats collector) against its natural-language
specification.  The definitions below are a shallow embedding of the
TypeScript sources under `src/cerebellum/`: prompts are modelled as lists of
characters, JavaScript numbers that carry fractional values (thresholds,
confidence, cost) as rationals, and the effectful pieces (the Ollama HTTP
round trips, the stats file, the clock) as explicit state or environment
parameters.
-/

namespace OpenClawPlus

/-! ## Character-list string helpers

JavaScript string primitives used by the evaluator, modelled over
`List Char`.  `toLowerL`/`trimL` model `toLowerCase`/`trim`, and
`firstMatchIdx` models `String.prototype.match` with a literal pattern
(the index of the first occurrence of the needle).  -/

/-- Lower-case each character (models `toLowerCase`; ASCII-faithful). -/
def toLowerL (s : List Char) : List Char := s.map Char.toLower

/-- Strip leading and trailing whitespace (models `trim`). -/
def trimL (s : List Char) : List Char :=
  ((s.dropWhile Char.isWhitespace).reverse.dropWhile Char.isWhitespace).reverse

/-- Does `s` start with `pre` (models `startsWith`)? -/
def startsWithL (s pre : List Char) : Bool := pre.isPrefixOf s

/-- Index of the first occurrence of `needle` in the haystack, if any
(models `string.match(/needle/).index` for a literal pattern). -/
def firstMatchIdx (needle : List Char) : List Char → Option Nat
  | [] => if needle.isEmpty then some 0 else none
  | c :: rest =>
    if needle.isPrefixOf (c :: rest) then some 0
    else (firstMatchIdx needle rest).map (· + 1)

/-- Substring containment (models `includes`). -/
def containsL (s sub : List Char) : Bool := (firstMatchIdx sub s).isSome

/-! ## Data model (src/cerebellum/types.ts) -/

/-- Task categories (`TaskType` in types.ts). -/
inductive TaskType where
  | greeting
  | status_check
  | simple_qa
  | scheduled_task
  | text_summary
  | format_conversion
  | code_generation
  | complex_analysis
  | multi_step_planning
  | creative_writing
  | debugging
  | research
  | keyword_triggered
  | unknown
deriving DecidableEq, Repr

/-- Precision requirement of an assessment ("high" | "medium" | "low"). -/
inductive Precision where
  | high
  | medium
  | low
deriving DecidableEq, Repr

/-- `TaskInfo` from types.ts.  The prompt is a character list; counters are
naturals. -/
structure TaskInfo where
  type : TaskType
  prompt : List Char
  hasCode : Bool
  hasMath : Bool
  estimatedTokens : Nat
  isHighFrequency : Bool
  historyLength : Nat
  isScheduledTask : Bool
deriving DecidableEq, Repr

/-- `TaskThresholds` from types.ts; JavaScript numbers become rationals. -/
structure TaskThresholds where
  maxEstimatedTime : ℚ
  maxComplexity : ℚ
  minConfidence : ℚ
deriving DecidableEq, Repr

/-- `StatsConfig` from types.ts. -/
structure StatsConfig where
  enabled : Bool
  logPath : String
deriving DecidableEq, Repr

/-- `CerebellumConfig` from types.ts. -/
structure CerebellumConfig where
  enabled : Bool
  provider : String
  model : String
  baseUrl : String
  thresholds : TaskThresholds
  forceCerebellumFor : List TaskType
  forceCerebrumFor : List TaskType
  stats : StatsConfig
deriving DecidableEq, Repr

/-- `TaskAssessment` from types.ts.  `estimatedTime` is the rounded number
of seconds (an integer after `Math.round`), `confidence` a rational. -/
structure TaskAssessment where
  useCerebellum : Bool
  confidence : ℚ
  reason : String
  taskType : TaskType
  estimatedTokens : Nat
  estimatedTime : ℤ
  complexity : Nat
  precisionRequirement : Precision
deriving DecidableEq, Repr

/-- Routing target ("cerebellum" | "cerebrum"). -/
inductive Target where
  | cerebellum
  | cerebrum
deriving DecidableEq, Repr

/-- `RoutingDecision` from types.ts (`timestamp` is `Date.now()`, supplied
by the caller of the model). -/
structure RoutingDecision where
  target : Target
  assessment : TaskAssessment
  isManualOverride : Bool
  timestamp : Nat
deriving DecidableEq, Repr

/-- Token usage breakdown of a cerebellum response. -/
structure TokenUsage where
  input : Nat
  output : Nat
  total : Nat
deriving DecidableEq, Repr

/-- `CerebellumResponse` from types.ts. -/
structure CerebellumResponse where
  text : String
  success : Bool
  error : Option String
  model : String
  durationMs : Nat
  usage : Option TokenUsage
deriving DecidableEq, Repr

/-- `DEFAULT_CEREBELLUM_CONFIG.thresholds` from types.ts. -/
def defaultThresholds : TaskThresholds :=
  {maxEstimatedTime := 1200, maxComplexity := 4, minConfidence := 0.7}

/-- `DEFAULT_CEREBELLUM_CONFIG` from types.ts. -/
def defaultConfig : CerebellumConfig :=
  {enabled := true,
   provider := "ollama",
   model := "qwen2.5:0.5b",
   baseUrl := "http://127.0.0.1:11434",
   thresholds := defaultThresholds,
   forceCerebellumFor :=
     [.greeting, .status_check, .simple_qa, .scheduled_task, .text_summary,
      .format_conversion],
   forceCerebrumFor :=
     [.code_generation, .complex_analysis, .multi_step_planning,
      .creative_writing, .debugging, .research],
   stats := {enabled := true, logPath := "~/.openclaw/cerebellum-stats.json"}}

/-! ## Task evaluator (src/cerebellum/task-evaluator.ts) -/

/-- `TaskAnalysis` (task-evaluator.ts). -/
structure TaskAnalysis where
  hasCode : Bool
  hasMath : Bool
  hasCreative : Bool
  hasAnalysis : Bool
  hasPlanning : Bool
  isGreeting : Bool
  isStatusQuery : Bool
  detectedType : TaskType
  promptLength : Nat
deriving DecidableEq, Repr

/-- The `<cb>` open marker. -/
def cbOpen : List Char := "<cb>".toList

/-- The `</cb>` close marker. -/
def cbClose : List Char := "</cb>".toList

/-- The assessment returned when a paired `<cb>...</cb>` marker with
content in between is found (`checkForcedRules`, first branch). -/
def cbPairedAssessment (task : TaskInfo) : TaskAssessment :=
  {useCerebellum := true,
   confidence := 1,
   reason := "Full Cerebellum Mode: processing content within <cb>...</cb> tags",
   taskType := .keyword_triggered,
   estimatedTokens := task.estimatedTokens,
   estimatedTime := 30,
   complexity := 2,
   precisionRequirement := .low}

/-- The assessment returned when an unpaired `<cb>` marker is found
(`checkForcedRules`, second branch). -/
def cbUnpairedAssessment (task : TaskInfo) : TaskAssessment :=
  {useCerebellum := true,
   confidence := 1,
   reason := "Full Cerebellum Mode: <cb> tag detected, all content processed by cerebellum",
   taskType := .keyword_triggered,
   estimatedTokens := task.estimatedTokens,
   estimatedTime := 30,
   complexity := 2,
   precisionRequirement := .low}

/-- The `<cb>` marker section of `checkForcedRules` (lines 91-123): the
regex matches `/<cb>/i` and `/<\/cb>/i` against the prompt; with both
markers present the rule fires only when the open marker ends strictly
before the close marker starts (`startIndex < endIndex` with
`startIndex = cbStartMatch.index + 4`). -/
def cbMarkerCheck (task : TaskInfo) : Option TaskAssessment :=
  let lower := toLowerL task.prompt
  match firstMatchIdx cbOpen lower, firstMatchIdx cbClose lower with
  | some i, some j =>
    if i + 4 < j then some (cbPairedAssessment task) else none
  | some _, none => some (cbUnpairedAssessment task)
  | none, _ => none

/-- The keyword-trigger section of `checkForcedRules` (lines 125-143):
the trimmed, lower-cased prompt starting with one of the trigger tokens
forces the cerebellum. -/
def keywordTriggerCheck (task : TaskInfo) : Option TaskAssessment :=
  let promptLower := toLowerL (trimL task.prompt)
  if startsWithL promptLower "小脑".toList
      || startsWithL promptLower "cerebellum".toList
      || startsWithL promptLower "cb ".toList
      || startsWithL promptLower "cb，".toList
      || startsWithL promptLower "cb,".toList then
    some
      {useCerebellum := true,
       confidence := 1,
       reason := "Triggered by keyword: 小脑/Cerebellum/cb prefix",
       taskType := .keyword_triggered,
       estimatedTokens := task.estimatedTokens,
       estimatedTime := 30,
       complexity := 2,
       precisionRequirement := .low}
  else none

/-- Render a task type as its TypeScript string literal. -/
def TaskType.toStr : TaskType → String
  | .greeting => "greeting"
  | .status_check => "status_check"
  | .simple_qa => "simple_qa"
  | .scheduled_task => "scheduled_task"
  | .text_summary => "text_summary"
  | .format_conversion => "format_conversion"
  | .code_generation => "code_generation"
  | .complex_analysis => "complex_analysis"
  | .multi_step_planning => "multi_step_planning"
  | .creative_writing => "creative_writing"
  | .debugging => "debugging"
  | .research => "research"
  | .keyword_triggered => "keyword_triggered"
  | .unknown => "unknown"

/-- The forced-category section of `checkForcedRules` (lines 145-171):
`forceCerebellumFor` membership wins over `forceCerebrumFor`. -/
def forcedListCheck (cfg : CerebellumConfig) (task : TaskInfo) :
    Option TaskAssessment :=
  if task.type ∈ cfg.forceCerebellumFor then
    some
      {useCerebellum := true,
       confidence := 1,
       reason := "Task type \"" ++ task.type.toStr ++ "\" is in forceCerebellumFor list",
       taskType := task.type,
       estimatedTokens := task.estimatedTokens,
       estimatedTime := 30,
       complexity := 2,
       precisionRequirement := .low}
  else if task.type ∈ cfg.forceCerebrumFor then
    some
      {useCerebellum := false,
       confidence := 1,
       reason := "Task type \"" ++ task.type.toStr ++ "\" is in forceCerebrumFor list",
       taskType := task.type,
       estimatedTokens := task.estimatedTokens,
       estimatedTime := 300,
       complexity := 8,
       precisionRequirement := .high}
  else none

/-- `TaskEvaluator.checkForcedRules`: the three sections in source order,
each early `return` modelled as the first `some`. -/
def checkForcedRules (cfg : CerebellumConfig) (task : TaskInfo) :
    Option TaskAssessment :=
  match cbMarkerCheck task with
  | some a => some a
  | none =>
    match keywordTriggerCheck task with
    | some a => some a
    | none => forcedListCheck cfg task

/-- Code-related keywords (`analyzeTask`). -/
def codeKeywords : List (List Char) :=
  ["code", "program", "function", "class", "debug", "error", "bug",
   "implement", "algorithm", "data structure", "api", "database",
   "refactor", "optimize", "performance"].map String.toList

/-- Math-related keywords (`analyzeTask`). -/
def mathKeywords : List (List Char) :=
  ["calculate", "compute", "math", "equation", "formula", "solve",
   "statistics", "probability", "algebra", "calculus", "geometry"].map
    String.toList

/-- Creative-writing keywords (`analyzeTask`). -/
def creativeKeywords : List (List Char) :=
  ["write", "story", "creative", "poem", "essay", "article", "blog",
   "content", "marketing", "copy", "fiction"].map String.toList

/-- Analysis keywords (`analyzeTask`). -/
def analysisKeywords : List (List Char) :=
  ["analyze", "analysis", "research", "investigate", "study", "review",
   "evaluate", "assess", "compare", "contrast", "synthesize",
   "critique"].map String.toList

/-- Planning keywords (`analyzeTask`). -/
def planningKeywords : List (List Char) :=
  ["plan", "strategy", "roadmap", "schedule", "timeline", "project",
   "steps", "phases", "milestone", "goal"].map String.toList

/-- Greeting keywords (`analyzeTask`). -/
def greetingKeywords : List (List Char) :=
  ["hello", "hi", "hey", "good morning", "good afternoon", "good evening",
   "how are you", "what\x27s up", "greetings"].map String.toList

/-- Status-query keywords (`analyzeTask`). -/
def statusKeywords : List (List Char) :=
  ["status", "check", "health", "state", "condition", "progress",
   "update", "report", "summary"].map String.toList

/-- The task-type detection chain of `analyzeTask` (lines 297-318),
factored out over the seven keyword flags, the scheduled-task hint and
the prompt length. -/
def detectType (isGreeting isStatusQuery hasCode hasMath hasPlanning
    hasCreative hasAnalysis sched : Bool) (promptLength : Nat) : TaskType :=
  if isGreeting = true ∧ promptLength < 50 then .greeting
  else if isStatusQuery = true ∧ promptLength < 100 then .status_check
  else if hasCode = true then .code_generation
  else if hasMath = true then
    (if sched = true then .scheduled_task else .complex_analysis)
  else if hasPlanning = true ∧ promptLength > 200 then .multi_step_planning
  else if hasCreative = true ∧ promptLength > 150 then .creative_writing
  else if hasAnalysis = true ∧ promptLength > 300 then .complex_analysis
  else if promptLength < 150 ∧ hasCode = false ∧ hasMath = false then .simple_qa
  else if sched = true then .scheduled_task
  else .unknown

/-- `TaskEvaluator.analyzeTask`. -/
def analyzeTask (task : TaskInfo) : TaskAnalysis :=
  let prompt := toLowerL task.prompt
  let promptLength := task.prompt.length
  let hasCode := codeKeywords.any (fun kw => containsL prompt kw) || task.hasCode
  let hasMath := mathKeywords.any (fun kw => containsL prompt kw) || task.hasMath
  let hasCreative := creativeKeywords.any (fun kw => containsL prompt kw)
  let hasAnalysis := analysisKeywords.any (fun kw => containsL prompt kw)
  let hasPlanning := planningKeywords.any (fun kw => containsL prompt kw)
  let isGreeting := greetingKeywords.any (fun kw => containsL prompt kw)
  let isStatusQuery := statusKeywords.any (fun kw => containsL prompt kw)
  {hasCode := hasCode,
   hasMath := hasMath,
   hasCreative := hasCreative,
   hasAnalysis := hasAnalysis,
   hasPlanning := hasPlanning,
   isGreeting := isGreeting,
   isStatusQuery := isStatusQuery,
   detectedType :=
     detectType isGreeting isStatusQuery hasCode hasMath hasPlanning
       hasCreative hasAnalysis task.isScheduledTask promptLength,
   promptLength := promptLength}

/-- The per-type base complexity table of `calculateComplexity`.
`keyword_triggered` is absent from the source record, so the lookup
falls back to 5 (`?? 5`). -/
def typeComplexity : TaskType → Nat
  | .greeting => 1
  | .status_check => 2
  | .simple_qa => 2
  | .scheduled_task => 3
  | .text_summary => 3
  | .format_conversion => 2
  | .code_generation => 8
  | .complex_analysis => 7
  | .multi_step_planning => 8
  | .creative_writing => 6
  | .debugging => 7
  | .research => 8
  | .keyword_triggered => 5
  | .unknown => 5

/-- `TaskEvaluator.calculateComplexity` (lines 336-384).  Each guarded
`complexity += 1` statement becomes adding a 0/1 indicator; the final
clamp is `Math.min(10, Math.max(1, complexity))`. -/
def calculateComplexity (task : TaskInfo) (analysis : TaskAnalysis) : Nat :=
  let complexity := typeComplexity analysis.detectedType
  let complexity := complexity + (if analysis.promptLength > 2000 then 1 else 0)
  let complexity := complexity + (if analysis.promptLength > 5000 then 1 else 0)
  let complexity := complexity + (if analysis.hasCode = true then 1 else 0)
  let complexity := complexity + (if analysis.hasMath = true then 1 else 0)
  let complexity := complexity + (if task.historyLength > 10 then 1 else 0)
  let complexity := complexity + (if task.historyLength > 30 then 1 else 0)
  let complexity := complexity + (if task.estimatedTokens > 2000 then 1 else 0)
  let complexity := complexity + (if task.estimatedTokens > 4000 then 1 else 0)
  min 10 (max 1 complexity)

/-- `TaskEvaluator.assessPrecisionRequirement`.  Note that the last
specific branch tests the declared `task.type`, not the detected type. -/
def assessPrecisionRequirement (task : TaskInfo) (analysis : TaskAnalysis) :
    Precision :=
  if analysis.hasCode = true || analysis.hasMath = true then .high
  else if analysis.hasAnalysis = true || analysis.hasCreative = true then .medium
  else if task.type = .simple_qa ∨ task.type = .greeting then .low
  else .medium

/-- `TaskEvaluator.estimateExecutionTime`: seconds, rounded as by
`Math.round` (round half up, matching `round` on nonnegative
rationals). -/
def estimateExecutionTime (cfg : CerebellumConfig) (task : TaskInfo)
    (complexity : Nat) : ℤ :=
  let time : ℚ := (complexity : ℚ) * 30
  let time :=
    if task.estimatedTokens > 1000 then
      time + ((task.estimatedTokens : ℚ) / 1000) * 60
    else time
  let time := if cfg.enabled = true then time * 0.6 else time
  round time

/-- `TaskEvaluator.calculateConfidence`. -/
def calculateConfidence (task : TaskInfo) (analysis : TaskAnalysis)
    (complexity : Nat) : ℚ :=
  let confidence : ℚ := 0.5
  let confidence :=
    if analysis.detectedType ≠ .unknown then confidence + 0.2 else confidence
  let confidence :=
    if complexity ≤ 3 then confidence + 0.2
    else if complexity ≥ 8 then confidence - 0.1
    else confidence
  let confidence :=
    if analysis.promptLength < 100 then confidence + 0.1 else confidence
  let confidence :=
    if task.isHighFrequency = true then confidence + 0.1 else confidence
  min 1 (max 0 confidence)

/-- `TaskEvaluator.shouldUseCerebellum` (lines 462-499). -/
def shouldUseCerebellum (th : TaskThresholds) (task : TaskInfo)
    (complexity : Nat) (precisionRequirement : Precision)
    (estimatedTime : ℤ) (confidence : ℚ) : Bool :=
  if (complexity : ℚ) > th.maxComplexity then false
  else if (estimatedTime : ℚ) > th.maxEstimatedTime then false
  else if confidence < th.minConfidence then false
  else if precisionRequirement = .high then false
  else if task.isScheduledTask = true ∧ estimatedTime < 600 then true
  else if task.isHighFrequency = true ∧ complexity ≤ 3 then true
  else complexity ≤ 5

/-- Render a rational for reason strings.  Abstracts JavaScript decimal
number formatting (`toFixed`, template interpolation); the rendering of
these audit strings does not feed back into any routing decision. -/
def fmtQ (q : ℚ) : String :=
  if q.den = 1 then toString q.num
  else toString q.num ++ "/" ++ toString q.den

/-- `TaskEvaluator.generateReason`. -/
def generateReason (th : TaskThresholds) (useCerebellum : Bool)
    (task : TaskInfo) (complexity : Nat) (precisionRequirement : Precision)
    (estimatedTime : ℤ) (confidence : ℚ) : String :=
  if useCerebellum then
    let reasons : List String := []
    let reasons :=
      if complexity ≤ 3 then reasons ++ ["low complexity"] else reasons
    let reasons :=
      if task.isScheduledTask = true ∧ estimatedTime < 600 then
        reasons ++ ["scheduled task under 10min"]
      else reasons
    let reasons :=
      if task.isHighFrequency = true then
        reasons ++ ["high frequency pattern"]
      else reasons
    let reasons :=
      if precisionRequirement = .low then
        reasons ++ ["low precision requirement"]
      else reasons
    "Using cerebellum: " ++
      (if reasons.isEmpty then "suitable for local model"
       else String.intercalate ", " reasons)
  else
    let reasons : List String := []
    let reasons :=
      if (complexity : ℚ) > th.maxComplexity then
        reasons ++
          ["high complexity (" ++ toString complexity ++ "/" ++
            fmtQ th.maxComplexity ++ ")"]
      else reasons
    let reasons :=
      if (estimatedTime : ℚ) > th.maxEstimatedTime then
        reasons ++
          ["long execution time (" ++ toString (round ((estimatedTime : ℚ) / 60)) ++
            "min)"]
      else reasons
    let reasons :=
      if precisionRequirement = .high then
        reasons ++ ["high precision requirement"]
      else reasons
    let reasons :=
      if confidence < th.minConfidence then
        reasons ++ ["low confidence (" ++ fmtQ confidence ++ ")"]
      else reasons
    "Using cerebrum: " ++
      (if reasons.isEmpty then "task requires cloud model"
       else String.intercalate ", " reasons)

/-- `TaskEvaluator.evaluate` (lines 30-81). -/
def evaluate (cfg : CerebellumConfig) (task : TaskInfo) : TaskAssessment :=
  match checkForcedRules cfg task with
  | some forcedDecision => forcedDecision
  | none =>
    let analysis := analyzeTask task
    let complexity := calculateComplexity task analysis
    let precisionRequirement := assessPrecisionRequirement task analysis
    let estimatedTime := estimateExecutionTime cfg task complexity
    let confidence := calculateConfidence task analysis complexity
    let useCerebellum :=
      shouldUseCerebellum cfg.thresholds task complexity
        precisionRequirement estimatedTime confidence
    let reason :=
      generateReason cfg.thresholds useCerebellum task complexity
        precisionRequirement estimatedTime confidence
    {useCerebellum := useCerebellum,
     confidence := confidence,
     reason := reason,
     taskType := analysis.detectedType,
     estimatedTokens := task.estimatedTokens,
     estimatedTime := estimatedTime,
     complexity := complexity,
     precisionRequirement := precisionRequirement}

/-! ## Stats collector (src/cerebellum/stats-collector.ts)

The collector's effectful shell is modelled explicitly: `cache` is the
in-process `this.cache` field and `file` the JSON document on disk at
`logPath` (`none` when the file is missing or unparsable).  The wall
clock (`new Date().toISOString()`) is a `now : String` parameter. -/

/-- `StatsEntry` (stats-collector.ts). -/
structure StatsEntry where
  timestamp : String
  target : Target
  taskType : TaskType
  success : Option Bool
  error : Option String
  durationMs : Option Nat
  tokensInput : Option Nat
  tokensOutput : Option Nat
deriving DecidableEq, Repr

/-- `StatsData` (stats-collector.ts). -/
structure StatsData where
  entries : List StatsEntry
  totalRequests : Nat
  successfulRequests : Nat
  failedRequests : Nat
  totalDurationMs : Nat
  tokensSaved : Nat
  lastUpdated : String
deriving DecidableEq, Repr

/-- `DEFAULT_COST_PER_1K_TOKENS` (stats-collector.ts). -/
def DEFAULT_COST_PER_1K_TOKENS : ℚ := 0.03

/-- The fresh document built by `loadData` when no stored data exists. -/
def emptyStatsData (now : String) : StatsData :=
  {entries := [],
   totalRequests := 0,
   successfulRequests := 0,
   failedRequests := 0,
   totalDurationMs := 0,
   tokensSaved := 0,
   lastUpdated := now}

/-- The collector's mutable surroundings: the in-process cache and the
stats file. -/
structure CollectorState where
  cache : Option StatsData
  file : Option StatsData
deriving DecidableEq, Repr

/-- `StatsCollector.loadData`: serve the cache if present, otherwise read
and parse the file (caching the result), otherwise fall back to a fresh
document (also cached). -/
def loadData (now : String) (st : CollectorState) :
    StatsData × CollectorState :=
  match st.cache with
  | some d => (d, st)
  | none =>
    match st.file with
    | some d => (d, {st with cache := some d})
    | none =>
      (emptyStatsData now, {st with cache := some (emptyStatsData now)})

/-- The data a subsequent `loadData` would observe in a state. -/
def currentData (now : String) (st : CollectorState) : StatsData :=
  (loadData now st).1

/-- `StatsCollector.saveData`: a no-op when stats are disabled; otherwise
stamp `lastUpdated`, set the cache and rewrite the file (write errors
are swallowed; the model takes the write to succeed). -/
def saveData (cfg : StatsConfig) (now : String) (data : StatsData)
    (st : CollectorState) : CollectorState :=
  if cfg.enabled = false then st
  else
    let stamped := {data with lastUpdated := now}
    {cache := some stamped, file := some stamped}

/-- The entry pushed by `recordDecision`. -/
def decisionEntry (now : String) (decision : RoutingDecision) : StatsEntry :=
  {timestamp := now,
   target := decision.target,
   taskType := decision.assessment.taskType,
   success := none,
   error := none,
   durationMs := none,
   tokensInput := none,
   tokensOutput := none}

/-- The pure read-modify step of `recordDecision` (lines 115-129): push an
entry, bump `totalRequests`, and truncate the entry log to the most
recent 5000 entries (`entries.slice(-5000)`) once it exceeds 10000. -/
def recordDecisionData (now : String) (decision : RoutingDecision)
    (data : StatsData) : StatsData :=
  let data :=
    {data with
      entries := data.entries ++ [decisionEntry now decision],
      totalRequests := data.totalRequests + 1}
  if data.entries.length > 10000 then
    {data with entries := data.entries.drop (data.entries.length - 5000)}
  else data

/-- `StatsCollector.recordDecision` (lines 110-131). -/
def recordDecision (cfg : StatsConfig) (now : String)
    (decision : RoutingDecision) (st : CollectorState) : CollectorState :=
  if cfg.enabled = false then st
  else
    let loaded := loadData now st
    saveData cfg now (recordDecisionData now decision loaded.1) loaded.2

/-- Back-fill the most recently appended entry when it is a cerebellum
entry (the `lastEntry` mutation in `recordSuccess`/`recordFailure`). -/
def backfillLast (f : StatsEntry → StatsEntry) (l : List StatsEntry) :
    List StatsEntry :=
  match l.getLast? with
  | some e => if e.target = .cerebellum then l.dropLast ++ [f e] else l
  | none => l

/-- The pure read-modify step of `recordSuccess` (lines 138-157). -/
def recordSuccessData (response : CerebellumResponse) (data : StatsData) :
    StatsData :=
  let data :=
    {data with
      successfulRequests := data.successfulRequests + 1,
      totalDurationMs := data.totalDurationMs + response.durationMs,
      tokensSaved :=
        data.tokensSaved +
          (match response.usage with
           | some u => u.total
           | none => 0)}
  {data with
    entries :=
      backfillLast
        (fun e =>
          {e with
            success := some true,
            durationMs := some response.durationMs,
            tokensInput := (response.usage).map TokenUsage.input,
            tokensOutput := (response.usage).map TokenUsage.output})
        data.entries}

/-- `StatsCollector.recordSuccess` (lines 133-160). -/
def recordSuccess (cfg : StatsConfig) (now : String) (task : TaskInfo)
    (response : CerebellumResponse) (st : CollectorState) : CollectorState :=
  if cfg.enabled = false then st
  else
    let loaded := loadData now st
    saveData cfg now (recordSuccessData response loaded.1) loaded.2

/-- The pure read-modify step of `recordFailure` (lines 167-178). -/
def recordFailureData (error : Option String) (data : StatsData) :
    StatsData :=
  let data := {data with failedRequests := data.failedRequests + 1}
  {data with
    entries :=
      backfillLast (fun e => {e with success := some false, error := error})
        data.entries}

/-- `StatsCollector.recordFailure` (lines 162-179). -/
def recordFailure (cfg : StatsConfig) (now : String) (task : TaskInfo)
    (error : Option String) (st : CollectorState) : CollectorState :=
  if cfg.enabled = false then st
  else
    let loaded := loadData now st
    saveData cfg now (recordFailureData error loaded.1) loaded.2

/-- Raw per-type accumulator of `getStats` (`taskTypeStats`). -/
structure RawTypeStats where
  count : Nat
  successCount : Nat
  totalTime : Nat
deriving DecidableEq, Repr

/-- Update the association list for one key, inserting at the back on
first sight (JavaScript objects preserve insertion order). -/
def updateAssoc (key : TaskType) (f : RawTypeStats → RawTypeStats) :
    List (TaskType × RawTypeStats) → List (TaskType × RawTypeStats)
  | [] => [(key, f {count := 0, successCount := 0, totalTime := 0})]
  | (k, v) :: rest =>
    if k = key then (k, f v) :: rest else (k, v) :: updateAssoc key f rest

/-- The per-entry accumulation loop of `getStats` (lines 190-200): count
every entry; count success and duration only when `entry.success` is
truthy. -/
def rawTypeStats (entries : List StatsEntry) :
    List (TaskType × RawTypeStats) :=
  entries.foldl
    (fun acc e =>
      updateAssoc e.taskType
        (fun s =>
          let s := {s with count := s.count + 1}
          if e.success = some true then
            {s with
              successCount := s.successCount + 1,
              totalTime := s.totalTime + e.durationMs.getD 0}
          else s)
        acc)
    []

/-- Formatted per-type statistics (`CerebellumStats["taskTypeStats"]`). -/
structure TypeStatsView where
  count : Nat
  successRate : ℚ
  averageTime : ℚ
deriving DecidableEq, Repr

/-- `CerebellumStats` from types.ts. -/
structure CerebellumStats where
  totalRequests : Nat
  successfulRequests : Nat
  failedRequests : Nat
  averageResponseTime : ℚ
  tokensSaved : Nat
  costSaved : ℚ
  taskTypeStats : List (TaskType × TypeStatsView)
  lastUpdated : String
deriving DecidableEq, Repr

/-- `StatsCollector.getStats` (lines 181-231).  Note that the source does
not consult `config.enabled` here: it reports whatever `loadData`
returns. -/
def getStats (cfg : StatsConfig) (now : String) (st : CollectorState) :
    CerebellumStats × CollectorState :=
  let loaded := loadData now st
  let data := loaded.1
  let formatted :=
    (rawTypeStats data.entries).map
      (fun kv =>
        (kv.1,
         {count := kv.2.count,
          successRate :=
            if kv.2.count > 0 then (kv.2.successCount : ℚ) / kv.2.count
            else 0,
          averageTime :=
            if kv.2.successCount > 0 then
              (kv.2.totalTime : ℚ) / kv.2.successCount
            else 0}))
  let averageResponseTime :=
    if data.successfulRequests > 0 then
      (data.totalDurationMs : ℚ) / data.successfulRequests
    else 0
  let costSaved := ((data.tokensSaved : ℚ) / 1000) * DEFAULT_COST_PER_1K_TOKENS
  ({totalRequests := data.totalRequests,
    successfulRequests := data.successfulRequests,
    failedRequests := data.failedRequests,
    averageResponseTime := averageResponseTime,
    tokensSaved := data.tokensSaved,
    costSaved := costSaved,
    taskTypeStats := formatted,
    lastUpdated := data.lastUpdated}, loaded.2)

/-- `StatsCollector.reset` (lines 233-245): replace the stored data with
an empty document (through `saveData`, so a no-op when disabled). -/
def resetState (cfg : StatsConfig) (now : String) (st : CollectorState) :
    CollectorState :=
  saveData cfg now (emptyStatsData now) st

/-! ## Dual-kernel router (src/cerebellum/router.ts)

The router's single local-backend round trip (`executeWithCerebellum`,
which dispatches to the kernel's `quickAnswer` / `summarize` /
`convertFormat` / `generate` and performs HTTP I/O) is abstracted as an
oracle `backend : TaskInfo → TaskAssessment → CerebellumResponse`.  The
`backendCalls` field of the outcome counts how many times the single
call site of `executeWithCerebellum` inside `route` ran. -/

/-- The router's session state: resolved configuration, the
`enableFallback` option (default `true` in the constructor) and the
cached reachability flag `cerebellumAvailable`. -/
structure Router where
  config : CerebellumConfig
  enableFallback : Bool
  cerebellumAvailable : Bool
deriving DecidableEq, Repr

/-- The value returned by `DualKernelRouter.route`. -/
structure RouteResult where
  target : Target
  assessment : TaskAssessment
  cerebellumResponse : Option CerebellumResponse
  fallbackReason : Option String
deriving DecidableEq, Repr

/-- A `route` call's result together with the stats state it leaves
behind and the number of local-backend invocations it performed. -/
structure RouteOutcome where
  result : RouteResult
  stats : CollectorState
  backendCalls : Nat
deriving Repr

/-- `DualKernelRouter.route` (lines 73-140).  `now` is the ISO timestamp
the stats collector would stamp and `tNow` the `Date.now()` value of the
routing decision. -/
def route (r : Router)
    (backend : TaskInfo → TaskAssessment → CerebellumResponse)
    (now : String) (tNow : Nat) (task : TaskInfo) (st : CollectorState) :
    RouteOutcome :=
  let assessment := evaluate r.config task
  let useCerebellum :=
    assessment.useCerebellum && r.config.enabled && r.cerebellumAvailable
  let decision : RoutingDecision :=
    {target := if useCerebellum then .cerebellum else .cerebrum,
     assessment := assessment,
     isManualOverride := false,
     timestamp := tNow}
  let st := recordDecision r.config.stats now decision st
  if useCerebellum then
    let response := backend task assessment
    if response.success then
      let st := recordSuccess r.config.stats now task response st
      {result :=
         {target := .cerebellum,
          assessment := assessment,
          cerebellumResponse := some response,
          fallbackReason := none},
       stats := st,
       backendCalls := 1}
    else
      let st := recordFailure r.config.stats now task response.error st
      if r.enableFallback then
        {result :=
           {target := .cerebrum,
            assessment := assessment,
            cerebellumResponse := none,
            fallbackReason := response.error},
         stats := st,
         backendCalls := 1}
      else
        {result :=
           {target := .cerebellum,
            assessment := assessment,
            cerebellumResponse := some response,
            fallbackReason := none},
         stats := st,
         backendCalls := 1}
  else
    {result :=
       {target := .cerebrum,
        assessment := assessment,
        cerebellumResponse := none,
        fallbackReason := none},
     stats := st,
     backendCalls := 0}

/-! ## Cerebellum kernel (src/cerebellum/cerebellum-kernel.ts)

The Ollama HTTP endpoint is an environment: the two availability probes
are booleans, and the generate POST either returns a non-2xx body, throws
(carrying a message string), or succeeds with a parsed document.  Elapsed
wall-clock time is a parameter. -/

/-- Generation options accepted by `generate`. -/
structure GenOptions where
  temperature : Option ℚ
  maxTokens : Option Nat
deriving DecidableEq, Repr

/-- The `options` object of an Ollama generate request. -/
structure OllamaOptions where
  temperature : ℚ
  num_predict : Nat
  top_p : ℚ
  top_k : Nat
deriving DecidableEq, Repr

/-- `OllamaGenerateRequest` (cerebellum-kernel.ts). -/
structure OllamaGenerateRequest where
  model : String
  prompt : String
  system : Option String
  stream : Bool
  options : OllamaOptions
deriving DecidableEq, Repr

/-- The fields of `OllamaGenerateResponse` that `generate` reads; each may
be absent from the parsed JSON. -/
structure OllamaGenerateResponse where
  model : Option String
  response : Option String
  prompt_eval_count : Option Nat
  eval_count : Option Nat
deriving DecidableEq, Repr

/-- Outcome of the generate `fetch`: non-2xx with a body, a thrown
exception carrying a message, or a parsed success document. -/
inductive FetchOutcome where
  | httpError (body : String)
  | thrown (message : String)
  | ok (data : OllamaGenerateResponse)
deriving DecidableEq, Repr

/-- The kernel's environment: the two availability probes and the
response of the generate endpoint to a request. -/
structure KernelEnv where
  serviceAvailable : Bool
  modelAvailable : Bool
  genFetch : OllamaGenerateRequest → FetchOutcome
  elapsedMs : Nat

/-- The request document assembled by `generate` (lines 161-175; the
`system` field is only set for a truthy, i.e. non-empty, system
prompt). -/
def buildGenRequest (cfg : CerebellumConfig) (prompt : String)
    (systemPrompt : Option String) (options : GenOptions) :
    OllamaGenerateRequest :=
  {model := cfg.model,
   prompt := prompt,
   system :=
     match systemPrompt with
     | some s => if s.isEmpty then none else some s
     | none => none,
   stream := false,
   options :=
     {temperature := (options.temperature).getD 0.7,
      num_predict := (options.maxTokens).getD 2048,
      top_p := 0.9,
      top_k := 40}}

/-- `CerebellumKernel.generate` (lines 129-220). -/
def generate (env : KernelEnv) (cfg : CerebellumConfig) (prompt : String)
    (systemPrompt : Option String) (options : GenOptions) :
    CerebellumResponse :=
  if env.serviceAvailable = false then
    {text := "",
     success := false,
     error := some "Ollama service is not available. Please ensure Ollama is running.",
     model := cfg.model,
     durationMs := env.elapsedMs,
     usage := none}
  else if env.modelAvailable = false then
    {text := "",
     success := false,
     error :=
       some ("Model " ++ cfg.model ++ " is not available. Run \x27ollama pull " ++
         cfg.model ++ "\x27 first."),
     model := cfg.model,
     durationMs := env.elapsedMs,
     usage := none}
  else
    match env.genFetch (buildGenRequest cfg prompt systemPrompt options) with
    | .httpError body =>
      {text := "",
       success := false,
       error := some ("Ollama API error: " ++ body),
       model := cfg.model,
       durationMs := env.elapsedMs,
       usage := none}
    | .thrown message =>
      {text := "",
       success := false,
       error := some message,
       model := cfg.model,
       durationMs := env.elapsedMs,
       usage := none}
    | .ok data =>
      {text := data.response.getD "",
       success := true,
       error := none,
       model := data.model.getD cfg.model,
       durationMs := env.elapsedMs,
       usage :=
         some
           {input := data.prompt_eval_count.getD 0,
            output := data.eval_count.getD 0,
            total := data.prompt_eval_count.getD 0 + data.eval_count.getD 0}}

/-- `CerebellumKernel.quickAnswer` (lines 225-233). -/
def quickAnswer (env : KernelEnv) (cfg : CerebellumConfig)
    (question : String) : CerebellumResponse :=
  let systemPrompt :=
    "You are a helpful assistant. Provide concise, accurate answers. \nKeep responses brief and to the point. If you\x27re unsure, say so."
  generate env cfg question (some systemPrompt)
    {temperature := some 0.5, maxTokens := some 512}

/-- `CerebellumKernel.summarize` (lines 238-250). -/
def summarize (env : KernelEnv) (cfg : CerebellumConfig) (text : String)
    (maxLength : Option Nat) : CerebellumResponse :=
  let maxSentences := maxLength.getD 3
  let prompt :=
    "Please summarize the following text in " ++ toString maxSentences ++
      " sentences or less:\n\n" ++ text ++ "\n\nSummary:"
  generate env cfg prompt none {temperature := some 0.3, maxTokens := some 256}

/-- Target formats of `convertFormat`. -/
inductive ConvFormat where
  | json
  | yaml
  | markdown
  | csv
deriving DecidableEq, Repr

/-- Upper-case name of a conversion format (`targetFormat.toUpperCase()`). -/
def ConvFormat.upper : ConvFormat → String
  | .json => "JSON"
  | .yaml => "YAML"
  | .markdown => "MARKDOWN"
  | .csv => "CSV"

/-- `CerebellumKernel.convertFormat` (lines 255-269). -/
def convertFormat (env : KernelEnv) (cfg : CerebellumConfig)
    (content : String) (targetFormat : ConvFormat) : CerebellumResponse :=
  let prompt :=
    "Convert the following content to " ++ targetFormat.upper ++
      " format:\n\n" ++ content ++ "\n\nConverted " ++ targetFormat.upper ++ ":"
  generate env cfg prompt none {temperature := some 0.2, maxTokens := some 1024}

/-! ## Predicates and concrete inputs used by the claims -/

/-- The prompt carries a paired full-cerebellum marker with non-empty
content: both `/<cb>/i` and `/<\/cb>/i` match and the first open marker
ends strictly before the first close marker starts (the firing condition
of the marker rule, task-evaluator.ts lines 94-99). -/
def cbPaired (p : List Char) : Bool :=
  match firstMatchIdx cbOpen (toLowerL p), firstMatchIdx cbClose (toLowerL p) with
  | some i, some j => decide (i + 4 < j)
  | _, _ => false

/-- The response invariant claimed for the kernel: a failed response has
empty text and a present error, a successful one has no error. -/
def respOk (r : CerebellumResponse) : Prop :=
  (r.success = false → r.text = "" ∧ r.error ≠ none) ∧
    (r.success = true → r.error = none)

/-- The environment never throws an exception with an empty message out
of the generate request. -/
def thrownNonEmpty (env : KernelEnv) : Prop :=
  ∀ req message, env.genFetch req = .thrown message → message ≠ ""

/-- The default empty snapshot the spec expects from `getStats`. -/
def emptySnapshot (now : String) : CerebellumStats :=
  {totalRequests := 0,
   successfulRequests := 0,
   failedRequests := 0,
   averageResponseTime := 0,
   tokensSaved := 0,
   costSaved := 0,
   taskTypeStats := [],
   lastUpdated := now}

/-- A task whose only free field is the prompt; hints off, 100 estimated
tokens. -/
def mkTask (ty : TaskType) (p : String) : TaskInfo :=
  {type := ty,
   prompt := p.toList,
   hasCode := false,
   hasMath := false,
   estimatedTokens := 100,
   isHighFrequency := false,
   historyLength := 0,
   isScheduledTask := false}

/-- Concrete input refuting C1: declared type is force-remote but the
prompt carries a paired marker. -/
def markerRemoteTask : TaskInfo := mkTask .code_generation "<cb>x</cb>"

/-- Concrete input for C10: both markers with nothing between them. -/
def emptyMarkerTask : TaskInfo := mkTask .unknown "<cb></cb>"

/-- Concrete input for C3: a code-keyword prompt with an unforced
declared type. -/
def codePromptTask : TaskInfo := mkTask .unknown "implement quicksort"

/-- Concrete greeting task used by router witnesses. -/
def greetingTask : TaskInfo := mkTask .greeting "hi"

/-- A pair of tiny prompts with identical (all-false) keyword analysis
for the monotonicity witness. -/
def shortTask : TaskInfo := mkTask .unknown "zz"

/-- Longer variant of `shortTask`. -/
def longTask : TaskInfo := mkTask .unknown "zzzz"

/-- A force-remote typed task with a plain prompt (no marker, no
trigger). -/
def codeRemoteTask : TaskInfo := mkTask .code_generation "sort this list"

/-- The spec example: a paired marker around real content on a
force-remote typed task. -/
def markerSummarizeTask : TaskInfo :=
  mkTask .code_generation "<cb>summarize this</cb>"

/-- A router over the default configuration with fallback enabled. -/
def fallbackRouter : Router :=
  {config := defaultConfig, enableFallback := true, cerebellumAvailable := true}

/-- A backend oracle that always fails with a fixed error. -/
def failingBackend : TaskInfo → TaskAssessment → CerebellumResponse :=
  fun _ _ =>
    {text := "",
     success := false,
     error := some "connection refused",
     model := "qwen2.5:0.5b",
     durationMs := 5,
     usage := none}

/-- The collector state of a fresh process with no stats file. -/
def freshState : CollectorState := {cache := none, file := none}

/-- A disabled stats configuration. -/
def statsOff : StatsConfig := {enabled := false, logPath := "stats.json"}

/-- An enabled stats configuration. -/
def statsOn : StatsConfig := {enabled := true, logPath := "stats.json"}

/-- A sample routing decision for collector witnesses. -/
def sampleDecision : RoutingDecision :=
  {target := .cerebellum,
   assessment := evaluate defaultConfig greetingTask,
   isManualOverride := false,
   timestamp := 1700000000000}

/-- A failed local-backend response. -/
def failedResponse : CerebellumResponse :=
  {text := "",
   success := false,
   error := some "connection refused",
   model := "qwen2.5:0.5b",
   durationMs := 5,
   usage := none}

/-- A stored stats document recording five requests (as left behind by an
earlier session that had stats enabled). -/
def fiveRequestData : StatsData :=
  {entries := [],
   totalRequests := 5,
   successfulRequests := 3,
   failedRequests := 2,
   totalDurationMs := 900,
   tokensSaved := 40,
   lastUpdated := "2024-01-01T00:00:00.000Z"}

/-- A collector state whose stats file holds `fiveRequestData`. -/
def fiveRequestState : CollectorState :=
  {cache := none, file := some fiveRequestData}

/-- Generation options with both fields absent. -/
def noOpts : GenOptions := {temperature := none, maxTokens := none}

/-- A kernel environment whose generate request throws an exception with
an empty message. -/
def emptyThrowEnv : KernelEnv :=
  {serviceAvailable := true,
   modelAvailable := true,
   genFetch := fun _ => .thrown "",
   elapsedMs := 7}

/-- A kernel environment with the Ollama service unreachable. -/
def downEnv : KernelEnv :=
  {serviceAvailable := false,
   modelAvailable := false,
   genFetch := fun _ => .thrown "unreachable",
   elapsedMs := 3}

/-! ## Helper lemmas -/

/-- Any assessment produced by the marker section forces the cerebellum
with confidence 1. -/
theorem cbMarkerCheck_forces {t : TaskInfo} {a : TaskAssessment}
    (h : cbMarkerCheck t = some a) :
    a.useCerebellum = true ∧ a.confidence = 1 := by
  unfold cbMarkerCheck at h
  dsimp only at h
  split at h
  · split at h
    · cases h
      exact ⟨rfl, rfl⟩
    · cases h
  · cases h
    exact ⟨rfl, rfl⟩
  · cases h

/-- Any assessment produced by the keyword-trigger section forces the
cerebellum with confidence 1. -/
theorem keywordTriggerCheck_forces {t : TaskInfo} {a : TaskAssessment}
    (h : keywordTriggerCheck t = some a) :
    a.useCerebellum = true ∧ a.confidence = 1 := by
  unfold keywordTriggerCheck at h
  dsimp only at h
  split at h
  · cases h
    exact ⟨rfl, rfl⟩
  · cases h

/-- `checkForcedRules` forwards a firing marker section. -/
theorem checkForcedRules_marker (cfg : CerebellumConfig) {t : TaskInfo}
    {a : TaskAssessment} (hm : cbMarkerCheck t = some a) :
    checkForcedRules cfg t = some a := by
  unfold checkForcedRules
  rw [hm]

/-- `checkForcedRules` forwards a firing keyword trigger. -/
theorem checkForcedRules_trigger (cfg : CerebellumConfig) {t : TaskInfo}
    {a : TaskAssessment} (hm : cbMarkerCheck t = none)
    (hk : keywordTriggerCheck t = some a) :
    checkForcedRules cfg t = some a := by
  unfold checkForcedRules
  rw [hm, hk]

/-- With neither marker nor trigger firing, `checkForcedRules` is the
forced-category check. -/
theorem checkForcedRules_list (cfg : CerebellumConfig) {t : TaskInfo}
    (hm : cbMarkerCheck t = none) (hk : keywordTriggerCheck t = none) :
    checkForcedRules cfg t = forcedListCheck cfg t := by
  unfold checkForcedRules
  rw [hm, hk]

/-- A forced rule short-circuits `evaluate`. -/
theorem evaluate_forced {cfg : CerebellumConfig} {t : TaskInfo}
    {a : TaskAssessment} (h : checkForcedRules cfg t = some a) :
    evaluate cfg t = a := by
  unfold evaluate
  rw [h]

/-- With the declared type in the force-local list, the forced-category
check forces the cerebellum with confidence 1. -/
theorem forcedListCheck_cb (cfg : CerebellumConfig) (t : TaskInfo)
    (h : t.type ∈ cfg.forceCerebellumFor) :
    ∃ a, forcedListCheck cfg t = some a ∧
      a.useCerebellum = true ∧ a.confidence = 1 := by
  unfold forcedListCheck
  rw [if_pos h]
  exact ⟨_, rfl, rfl, rfl⟩

/-- With the declared type in the force-remote list only, the
forced-category check forces the cerebrum with confidence 1. -/
theorem forcedListCheck_cr (cfg : CerebellumConfig) (t : TaskInfo)
    (h1 : t.type ∉ cfg.forceCerebellumFor)
    (h2 : t.type ∈ cfg.forceCerebrumFor) :
    ∃ a, forcedListCheck cfg t = some a ∧
      a.useCerebellum = false ∧ a.confidence = 1 := by
  unfold forcedListCheck
  rw [if_neg h1, if_pos h2]
  exact ⟨_, rfl, rfl, rfl⟩

/-- A `true` paired-marker predicate means the marker section fires with
the paired assessment. -/
theorem cbPaired_marker {t : TaskInfo} (h : cbPaired t.prompt = true) :
    cbMarkerCheck t = some (cbPairedAssessment t) := by
  unfold cbPaired at h
  unfold cbMarkerCheck
  dsimp only
  cases ho : firstMatchIdx cbOpen (toLowerL t.prompt) with
  | none =>
    rw [ho] at h
    simp at h
  | some i =>
    cases hc : firstMatchIdx cbClose (toLowerL t.prompt) with
    | none =>
      rw [ho, hc] at h
      simp at h
    | some j =>
      rw [ho, hc] at h
      exact if_pos (of_decide_eq_true h)

/-! ## Claims -/

/-- C1 (amended): a task whose declared type is in `forceCerebellumFor`
always yields `useCerebellum = true` with confidence 1 regardless of
prompt content; a task whose declared type is in `forceCerebrumFor`
yields `useCerebellum = false` with confidence 1 provided the type is not
also in `forceCerebellumFor` and neither the full-cerebellum marker rule
nor the trigger-prefix rule fires on the prompt (those two rules run
first and force the cerebellum). -/
theorem claim_C1_amended (cfg : CerebellumConfig) (t : TaskInfo) :
    (t.type ∈ cfg.forceCerebellumFor →
      (evaluate cfg t).useCerebellum = true ∧
        (evaluate cfg t).confidence = 1) ∧
    (t.type ∈ cfg.forceCerebrumFor → t.type ∉ cfg.forceCerebellumFor →
      cbMarkerCheck t = none → keywordTriggerCheck t = none →
      (evaluate cfg t).useCerebellum = false ∧
        (evaluate cfg t).confidence = 1) := by
  constructor
  · intro hmem
    cases hm : cbMarkerCheck t with
    | some a =>
      rw [evaluate_forced (checkForcedRules_marker cfg hm)]
      exact cbMarkerCheck_forces hm
    | none =>
      cases hk : keywordTriggerCheck t with
      | some a =>
        rw [evaluate_forced (checkForcedRules_trigger cfg hm hk)]
        exact keywordTriggerCheck_forces hk
      | none =>
        obtain ⟨a, ha, h1, h2⟩ := forcedListCheck_cb cfg t hmem
        rw [evaluate_forced ((checkForcedRules_list cfg hm hk).trans ha)]
        exact ⟨h1, h2⟩
  · intro hcr hncb hm hk
    obtain ⟨a, ha, h1, h2⟩ := forcedListCheck_cr cfg t hncb hcr
    rw [evaluate_forced ((checkForcedRules_list cfg hm hk).trans ha)]
    exact ⟨h1, h2⟩

/-- Witness for C1: with the default configuration, a greeting-typed task
is forced local, and a code-generation-typed task with a plain prompt is
forced remote, both with confidence 1. -/
theorem claim_C1_witness :
    ((evaluate defaultConfig greetingTask).useCerebellum = true ∧
      (evaluate defaultConfig greetingTask).confidence = 1) ∧
    ((evaluate defaultConfig codeRemoteTask).useCerebellum = false ∧
      (evaluate defaultConfig codeRemoteTask).confidence = 1) :=
  ⟨(claim_C1_amended defaultConfig greetingTask).1 (by decide),
   (claim_C1_amended defaultConfig codeRemoteTask).2 (by decide) (by decide)
     (by decide) (by decide)⟩

/-- Counterexample to C1 as stated: `code_generation` is in the default
`forceCerebrumFor` list, yet a prompt carrying a paired `<cb>...</cb>`
marker makes `evaluate` return `useCerebellum = true` — the force-remote
half does not hold "regardless of prompt content". -/
theorem claim_C1_counterexample :
    markerRemoteTask.type ∈ defaultConfig.forceCerebrumFor ∧
    (evaluate defaultConfig markerRemoteTask).useCerebellum = true := by
  constructor
  · decide
  · decide

/-- C2: a prompt containing a paired `<cb>...</cb>` marker with non-empty
content routes to the cerebellum even when the declared type is in the
`forceCerebrumFor` list, because the marker check runs before the
forced-category check. -/
theorem claim_C2 (cfg : CerebellumConfig) (t : TaskInfo)
    (hp : cbPaired t.prompt = true)
    (hmem : t.type ∈ cfg.forceCerebrumFor) :
    (evaluate cfg t).useCerebellum = true := by
  rw [evaluate_forced (checkForcedRules_marker cfg (cbPaired_marker hp))]
  rfl

/-- Witness for C2: the spec's example `"<cb>summarize this</cb>"` with
declared type `code_generation` routes local under the default
configuration. -/
theorem claim_C2_witness :
    cbPaired markerSummarizeTask.prompt = true ∧
    markerSummarizeTask.type ∈ defaultConfig.forceCerebrumFor ∧
    (evaluate defaultConfig markerSummarizeTask).useCerebellum = true :=
  ⟨by decide, by decide,
   claim_C2 defaultConfig markerSummarizeTask (by decide) (by decide)⟩

/-- C3: when no forced rule matches and the computed complexity exceeds
the configured `maxComplexity`, `evaluate` rejects the cerebellum,
whatever the other computed values are. -/
theorem claim_C3 (cfg : CerebellumConfig) (t : TaskInfo)
    (hforced : checkForcedRules cfg t = none)
    (hcx : (calculateComplexity t (analyzeTask t) : ℚ) >
      cfg.thresholds.maxComplexity) :
    (evaluate cfg t).useCerebellum = false := by
  unfold evaluate
  rw [hforced]
  show shouldUseCerebellum _ _ _ _ _ _ = false
  unfold shouldUseCerebellum
  rw [if_pos hcx]

/-- Witness for C3: `"implement quicksort"` classifies as code generation
(complexity 9) and, with the default `maxComplexity = 4` and no forced
rule firing, is rejected for local routing. -/
theorem claim_C3_witness :
    checkForcedRules defaultConfig codePromptTask = none ∧
    ((calculateComplexity codePromptTask (analyzeTask codePromptTask) : ℚ) >
      defaultConfig.thresholds.maxComplexity) ∧
    (evaluate defaultConfig codePromptTask).useCerebellum = false :=
  ⟨by decide, by decide,
   claim_C3 defaultConfig codePromptTask (by decide) (by decide)⟩

/-- C5: `evaluate` is a pure deterministic function — identical
(task, configuration) pairs produce identical assessments, every field
included. -/
theorem claim_C5 (cfg₁ cfg₂ : CerebellumConfig) (t₁ t₂ : TaskInfo)
    (ht : t₁ = t₂) (hc : cfg₁ = cfg₂) :
    evaluate cfg₁ t₁ = evaluate cfg₂ t₂ := by
  subst ht
  subst hc
  rfl

/-- Witness for C5 at a concrete input. -/
theorem claim_C5_witness :
    evaluate defaultConfig codePromptTask = evaluate defaultConfig codePromptTask :=
  claim_C5 defaultConfig defaultConfig codePromptTask codePromptTask rfl rfl

/-- C10: when both markers are present but the open marker does not end
strictly before the close marker (empty content, or the close marker at
or before the open marker), the marker rule does not fire at all:
evaluation falls through to the trigger-prefix check and the
forced-category lists, and with those silent too no forced rule fires. -/
theorem claim_C10 (cfg : CerebellumConfig) (t : TaskInfo) (i j : Nat)
    (ho : firstMatchIdx cbOpen (toLowerL t.prompt) = some i)
    (hc : firstMatchIdx cbClose (toLowerL t.prompt) = some j)
    (hij : ¬(i + 4 < j)) :
    cbMarkerCheck t = none ∧
    checkForcedRules cfg t =
      (match keywordTriggerCheck t with
       | some a => some a
       | none => forcedListCheck cfg t) ∧
    (keywordTriggerCheck t = none → forcedListCheck cfg t = none →
      checkForcedRules cfg t = none) := by
  have hm : cbMarkerCheck t = none := by
    unfold cbMarkerCheck
    dsimp only
    rw [ho, hc]
    exact if_neg hij
  refine ⟨hm, ?_, ?_⟩
  · unfold checkForcedRules
    rw [hm]
  · intro hk hl
    unfold checkForcedRules
    rw [hm, hk]
    exact hl

/-- Witness for C10: `"<cb></cb>"` (open at 0, close at 4) fires no
forced rule at all on an unforced task type. -/
theorem claim_C10_witness :
    cbMarkerCheck emptyMarkerTask = none ∧
    checkForcedRules defaultConfig emptyMarkerTask = none :=
  ⟨(claim_C10 defaultConfig emptyMarkerTask 0 4 (by decide) (by decide)
      (by decide)).1,
   (claim_C10 defaultConfig emptyMarkerTask 0 4 (by decide) (by decide)
      (by decide)).2.2 (by decide) (by decide)⟩

/-- The prompt length recorded by `analyzeTask` is the prompt's length. -/
theorem analyzeTask_promptLength (t : TaskInfo) :
    (analyzeTask t).promptLength = t.prompt.length := rfl

/-- The detected type recorded by `analyzeTask` is the detection chain
applied to the recorded keyword flags, the scheduled hint and the prompt
length. -/
theorem analyzeTask_detectedType (t : TaskInfo) :
    (analyzeTask t).detectedType =
      detectType (analyzeTask t).isGreeting (analyzeTask t).isStatusQuery
        (analyzeTask t).hasCode (analyzeTask t).hasMath
        (analyzeTask t).hasPlanning (analyzeTask t).hasCreative
        (analyzeTask t).hasAnalysis t.isScheduledTask t.prompt.length := rfl

set_option maxHeartbeats 1000000 in
/-- The per-type base complexity produced by the detection chain is
monotone in prompt length for fixed keyword flags and scheduled hint. -/
theorem detectType_base_mono (g s c m p cr an sc : Bool) {l₁ l₂ : Nat}
    (h : l₁ ≤ l₂) :
    typeComplexity (detectType g s c m p cr an sc l₁) ≤
      typeComplexity (detectType g s c m p cr an sc l₂) := by
  unfold detectType
  split_ifs <;> simp_all [typeComplexity] <;> omega

/-- `calculateComplexity` is monotone: a pointwise-larger base score and
prompt length with equal remaining inputs never decrease the score. -/
theorem calculateComplexity_mono (t₁ t₂ : TaskInfo) (a₁ a₂ : TaskAnalysis)
    (hbase : typeComplexity a₁.detectedType ≤ typeComplexity a₂.detectedType)
    (hC : a₁.hasCode = a₂.hasCode) (hM : a₁.hasMath = a₂.hasMath)
    (hl : a₁.promptLength ≤ a₂.promptLength)
    (hHist : t₁.historyLength = t₂.historyLength)
    (hTok : t₁.estimatedTokens = t₂.estimatedTokens) :
    calculateComplexity t₁ a₁ ≤ calculateComplexity t₂ a₂ := by
  unfold calculateComplexity
  dsimp only
  rw [hC, hM, hHist, hTok]
  have h1 : (if a₁.promptLength > 2000 then (1 : Nat) else 0) ≤
      (if a₂.promptLength > 2000 then (1 : Nat) else 0) := by
    split_ifs <;> omega
  have h2 : (if a₁.promptLength > 5000 then (1 : Nat) else 0) ≤
      (if a₂.promptLength > 5000 then (1 : Nat) else 0) := by
    split_ifs <;> omega
  exact min_le_min (le_refl 10) (max_le_max (le_refl 1) (by omega))

/-- C6: the computed complexity is monotone in prompt length — holding
the keyword analysis flags and every other task field fixed, a longer
prompt never yields a smaller complexity score (in particular across the
2000- and 5000-character bonus thresholds). -/
theorem claim_C6 (t₁ t₂ : TaskInfo)
    (hC : (analyzeTask t₁).hasCode = (analyzeTask t₂).hasCode)
    (hM : (analyzeTask t₁).hasMath = (analyzeTask t₂).hasMath)
    (hCr : (analyzeTask t₁).hasCreative = (analyzeTask t₂).hasCreative)
    (hAn : (analyzeTask t₁).hasAnalysis = (analyzeTask t₂).hasAnalysis)
    (hP : (analyzeTask t₁).hasPlanning = (analyzeTask t₂).hasPlanning)
    (hG : (analyzeTask t₁).isGreeting = (analyzeTask t₂).isGreeting)
    (hS : (analyzeTask t₁).isStatusQuery = (analyzeTask t₂).isStatusQuery)
    (hHist : t₁.historyLength = t₂.historyLength)
    (hTok : t₁.estimatedTokens = t₂.estimatedTokens)
    (hSched : t₁.isScheduledTask = t₂.isScheduledTask)
    (hLen : t₁.prompt.length ≤ t₂.prompt.length) :
    calculateComplexity t₁ (analyzeTask t₁) ≤
      calculateComplexity t₂ (analyzeTask t₂) := by
  have hbase : typeComplexity (analyzeTask t₁).detectedType ≤
      typeComplexity (analyzeTask t₂).detectedType := by
    rw [analyzeTask_detectedType t₁, analyzeTask_detectedType t₂, hC, hM,
      hCr, hAn, hP, hG, hS, hSched]
    exact detectType_base_mono _ _ _ _ _ _ _ _ hLen
  have hl : (analyzeTask t₁).promptLength ≤ (analyzeTask t₂).promptLength := by
    rw [analyzeTask_promptLength t₁, analyzeTask_promptLength t₂]
    exact hLen
  exact calculateComplexity_mono t₁ t₂ (analyzeTask t₁) (analyzeTask t₂)
    hbase hC hM hl hHist hTok

/-- Witness for C6 at concrete inputs with identical keyword flags and a
longer second prompt. -/
theorem claim_C6_witness :
    calculateComplexity shortTask (analyzeTask shortTask) ≤
      calculateComplexity longTask (analyzeTask longTask) :=
  claim_C6 shortTask longTask (by decide) (by decide) (by decide) (by decide)
    (by decide) (by decide) (by decide) (by decide) (by decide) (by decide)
    (by decide)

/-- With stats enabled, `recordDecision` leaves exactly the pure mutation
(stamped with the save time) as the loadable data. -/
theorem currentData_recordDecision (cfg : StatsConfig) (now : String)
    (d : RoutingDecision) (st : CollectorState) (he : cfg.enabled = true) :
    currentData now (recordDecision cfg now d st) =
      {recordDecisionData now d (currentData now st) with lastUpdated := now} := by
  unfold recordDecision
  rw [he]
  simp [saveData, currentData, loadData, he]

/-- With stats enabled, `recordFailure` leaves exactly the pure mutation
(stamped with the save time) as the loadable data. -/
theorem currentData_recordFailure (cfg : StatsConfig) (now : String)
    (task : TaskInfo) (err : Option String) (st : CollectorState)
    (he : cfg.enabled = true) :
    currentData now (recordFailure cfg now task err st) =
      {recordFailureData err (currentData now st) with lastUpdated := now} := by
  unfold recordFailure
  rw [he]
  simp [saveData, currentData, loadData, he]

/-- `recordDecisionData` does not touch the four non-request totals. -/
theorem recordDecisionData_totals (now : String) (d : RoutingDecision)
    (data : StatsData) :
    (recordDecisionData now d data).totalRequests = data.totalRequests + 1 ∧
    (recordDecisionData now d data).successfulRequests = data.successfulRequests ∧
    (recordDecisionData now d data).failedRequests = data.failedRequests ∧
    (recordDecisionData now d data).totalDurationMs = data.totalDurationMs ∧
    (recordDecisionData now d data).tokensSaved = data.tokensSaved := by
  unfold recordDecisionData
  dsimp only
  split_ifs <;> exact ⟨rfl, rfl, rfl, rfl, rfl⟩

/-- Length of the entry log after one `recordDecisionData`. -/
theorem recordDecisionData_length (now : String) (d : RoutingDecision)
    (data : StatsData) :
    (recordDecisionData now d data).entries.length =
      if data.entries.length + 1 > 10000 then 5000
      else data.entries.length + 1 := by
  unfold recordDecisionData
  dsimp only
  have hlen : (data.entries ++ [decisionEntry now d]).length =
      data.entries.length + 1 := by simp
  rw [hlen]
  split_ifs with h
  · rw [List.length_drop, hlen]
    omega
  · exact hlen

/-- The entry appended by `recordDecisionData` stays the most recent one,
truncation notwithstanding. -/
theorem recordDecisionData_getLast (now : String) (d : RoutingDecision)
    (data : StatsData) :
    (recordDecisionData now d data).entries.getLast? =
      some (decisionEntry now d) := by
  unfold recordDecisionData
  dsimp only
  split_ifs with h
  · rw [List.length_append] at h
    rw [List.drop_append_of_le_length
      (by simp only [List.length_append, List.length_singleton] at h ⊢; omega)]
    exact List.getLast?_concat _
  · exact List.getLast?_concat _

/-- With stats enabled, folding `recordDecision` over a decision list
adds the list's length to `totalRequests` and keeps the entry log within
the cap. -/
theorem recordDecision_fold (cfg : StatsConfig) (now : String)
    (he : cfg.enabled = true) (ds : List RoutingDecision) :
    ∀ st : CollectorState,
      (currentData now st).entries.length ≤ 10000 →
      (currentData now
          (ds.foldl (fun s dd => recordDecision cfg now dd s) st)).totalRequests =
        (currentData now st).totalRequests + ds.length ∧
      (currentData now
          (ds.foldl (fun s dd => recordDecision cfg now dd s) st)).entries.length ≤
        10000 := by
  induction ds with
  | nil =>
    intro st h
    exact ⟨rfl, h⟩
  | cons d ds ih =>
    intro st h
    have hstep := currentData_recordDecision cfg now d st he
    have hlen :
        (currentData now (recordDecision cfg now d st)).entries.length ≤ 10000 := by
      rw [hstep]
      show (recordDecisionData now d (currentData now st)).entries.length ≤ 10000
      rw [recordDecisionData_length]
      split_ifs <;> omega
    obtain ⟨h1, h2⟩ := ih (recordDecision cfg now d st) hlen
    rw [List.foldl_cons]
    refine ⟨?_, h2⟩
    rw [h1, hstep]
    show (recordDecisionData now d (currentData now st)).totalRequests + ds.length = _
    rw [(recordDecisionData_totals now d (currentData now st)).1]
    simp [List.length_cons]
    omega

/-- With stats enabled, `reset` leaves the empty document as the loadable
data. -/
theorem currentData_reset (cfg : StatsConfig) (now : String)
    (st : CollectorState) (he : cfg.enabled = true) :
    currentData now (resetState cfg now st) = emptyStatsData now := by
  unfold resetState saveData
  rw [he]
  simp [currentData, loadData, emptyStatsData]

/-- C7: with stats enabled, every `recordDecision` bumps `totalRequests`
by one and leaves the other running totals untouched (truncation
included); the new entry is appended at the back; the entry log is
truncated to the most recent 5000 entries once it would exceed 10000;
and after any sequence of `recordDecision` calls following a `reset`,
the stored entry log holds at most 10000 entries while `totalRequests`
equals the number of recorded decisions. -/
theorem claim_C7 (cfg : StatsConfig) (now : String) (d : RoutingDecision)
    (data : StatsData) (ds : List RoutingDecision) (st : CollectorState)
    (he : cfg.enabled = true) :
    ((recordDecisionData now d data).totalRequests = data.totalRequests + 1 ∧
     (recordDecisionData now d data).successfulRequests = data.successfulRequests ∧
     (recordDecisionData now d data).failedRequests = data.failedRequests ∧
     (recordDecisionData now d data).totalDurationMs = data.totalDurationMs ∧
     (recordDecisionData now d data).tokensSaved = data.tokensSaved) ∧
    (recordDecisionData now d data).entries.getLast? =
      some (decisionEntry now d) ∧
    ((recordDecisionData now d data).entries.length =
      if data.entries.length + 1 > 10000 then 5000
      else data.entries.length + 1) ∧
    (currentData now
        (ds.foldl (fun s dd => recordDecision cfg now dd s)
          (resetState cfg now st))).totalRequests = ds.length ∧
    (currentData now
        (ds.foldl (fun s dd => recordDecision cfg now dd s)
          (resetState cfg now st))).entries.length ≤ 10000 := by
  have hreset := currentData_reset cfg now st he
  have hfold := recordDecision_fold cfg now he ds (resetState cfg now st)
    (by rw [hreset]; exact Nat.zero_le _)
  refine ⟨recordDecisionData_totals now d data,
    recordDecisionData_getLast now d data,
    recordDecisionData_length now d data, ?_, hfold.2⟩
  rw [hfold.1, hreset]
  simp [emptyStatsData]

/-- Witness for C7 at concrete inputs. -/
theorem claim_C7_witness :
    ((recordDecisionData "t1" sampleDecision fiveRequestData).totalRequests =
        fiveRequestData.totalRequests + 1) ∧
    (currentData "t1"
        ([sampleDecision].foldl (fun s dd => recordDecision statsOn "t1" dd s)
          (resetState statsOn "t1" freshState))).totalRequests = 1 :=
  ⟨(claim_C7 statsOn "t1" sampleDecision fiveRequestData [sampleDecision]
      freshState rfl).1.1,
   (claim_C7 statsOn "t1" sampleDecision fiveRequestData [sampleDecision]
      freshState rfl).2.2.2.1⟩

/-- C8 (amended): with stats disabled, the four mutating operations
(`recordDecision`, `recordSuccess`, `recordFailure`, `reset`) leave the
collector state — cache and file — entirely unchanged; `getStats`,
however, does not consult the enabled flag: it reports whatever data is
loadable, which equals the default empty snapshot exactly when no stats
data is stored (fresh cache and no file). -/
theorem claim_C8_amended (cfg : StatsConfig) (now : String)
    (d : RoutingDecision) (task : TaskInfo) (resp : CerebellumResponse)
    (err : Option String) (st : CollectorState)
    (hd : cfg.enabled = false) :
    recordDecision cfg now d st = st ∧
    recordSuccess cfg now task resp st = st ∧
    recordFailure cfg now task err st = st ∧
    resetState cfg now st = st ∧
    (st.cache = none → st.file = none →
      (getStats cfg now st).1 = emptySnapshot now) := by
  refine ⟨?_, ?_, ?_, ?_, ?_⟩
  · unfold recordDecision
    rw [if_pos hd]
  · unfold recordSuccess
    rw [if_pos hd]
  · unfold recordFailure
    rw [if_pos hd]
  · unfold resetState saveData
    rw [if_pos hd]
  · intro h1 h2
    obtain ⟨c, f⟩ := st
    cases h1
    cases h2
    show (getStats cfg now {cache := none, file := none}).1 = emptySnapshot now
    unfold getStats loadData rawTypeStats
    simp [emptySnapshot, emptyStatsData, DEFAULT_COST_PER_1K_TOKENS,
      CerebellumStats.mk.injEq]

/-- Witness for C8 (amended) at concrete inputs. -/
theorem claim_C8_witness :
    recordDecision statsOff "t1" sampleDecision freshState = freshState ∧
    (getStats statsOff "t1" freshState).1 = emptySnapshot "t1" :=
  ⟨(claim_C8_amended statsOff "t1" sampleDecision greetingTask
      failedResponse none freshState rfl).1,
   (claim_C8_amended statsOff "t1" sampleDecision greetingTask
      failedResponse none freshState rfl).2.2.2.2 rfl rfl⟩

/-- Counterexample to C8 as stated: with stats disabled but a stats file
left behind by an earlier session, `getStats` returns that file's data —
not the default empty snapshot the claim demands. -/
theorem claim_C8_counterexample :
    statsOff.enabled = false ∧
    (getStats statsOff "t1" fiveRequestState).1.totalRequests = 5 ∧
    ¬(getStats statsOff "t1" fiveRequestState).1.totalRequests = 0 := by
  refine ⟨rfl, rfl, by decide⟩

/-- `recordFailureData` bumps the failure count by one. -/
theorem recordFailureData_failedRequests (err : Option String)
    (data : StatsData) :
    (recordFailureData err data).failedRequests = data.failedRequests + 1 :=
  rfl

/-- C4: on a local-eligible task whose backend call always fails, `route`
returns the remote target with the failed response's error as
`fallbackReason` when fallback is enabled, and the local target with the
failed response intact when it is disabled; in both cases the failure is
recorded (the failure count grows by one) and the local backend is
invoked exactly once — no retry. -/
theorem claim_C4 (r : Router)
    (backend : TaskInfo → TaskAssessment → CerebellumResponse)
    (now : String) (tNow : Nat) (task : TaskInfo) (st : CollectorState)
    (hu : (evaluate r.config task).useCerebellum = true)
    (hen : r.config.enabled = true)
    (hav : r.cerebellumAvailable = true)
    (hfail : ∀ t a, (backend t a).success = false)
    (herr : ((backend task (evaluate r.config task)).error).isSome = true)
    (hse : r.config.stats.enabled = true) :
    (r.enableFallback = true →
      (route r backend now tNow task st).result.target = .cerebrum ∧
      (route r backend now tNow task st).result.fallbackReason =
        (backend task (evaluate r.config task)).error ∧
      ((route r backend now tNow task st).result.fallbackReason).isSome = true) ∧
    (r.enableFallback = false →
      (route r backend now tNow task st).result.target = .cerebellum ∧
      (route r backend now tNow task st).result.cerebellumResponse =
        some (backend task (evaluate r.config task)) ∧
      (backend task (evaluate r.config task)).success = false) ∧
    (currentData now (route r backend now tNow task st).stats).failedRequests =
      (currentData now st).failedRequests + 1 ∧
    (route r backend now tNow task st).backendCalls = 1 := by
  have hA : (backend task (evaluate r.config task)).success = false :=
    hfail task (evaluate r.config task)
  have hstats : ∀ dcn : RoutingDecision,
      (currentData now (recordFailure r.config.stats now task
        (backend task (evaluate r.config task)).error
        (recordDecision r.config.stats now dcn st))).failedRequests =
      (currentData now st).failedRequests + 1 := by
    intro dcn
    rw [currentData_recordFailure _ _ _ _ _ hse,
      currentData_recordDecision _ _ _ _ hse]
    dsimp only
    rw [recordFailureData_failedRequests]
    dsimp only
    rw [(recordDecisionData_totals now dcn (currentData now st)).2.2.1]
  cases hf : r.enableFallback with
  | true =>
    have hroute : route r backend now tNow task st =
        {result :=
           {target := .cerebrum,
            assessment := evaluate r.config task,
            cerebellumResponse := none,
            fallbackReason := (backend task (evaluate r.config task)).error},
         stats :=
           recordFailure r.config.stats now task
             (backend task (evaluate r.config task)).error
             (recordDecision r.config.stats now
               {target := .cerebellum,
                assessment := evaluate r.config task,
                isManualOverride := false,
                timestamp := tNow} st),
         backendCalls := 1} := by
      unfold route
      dsimp only
      rw [hu, hen, hav, hf]
      simp [hA]
    rw [hroute]
    exact ⟨fun _ => ⟨rfl, rfl, herr⟩, fun hcon => Bool.noConfusion hcon, hstats _, rfl⟩
  | false =>
    have hroute : route r backend now tNow task st =
        {result :=
           {target := .cerebellum,
            assessment := evaluate r.config task,
            cerebellumResponse := some (backend task (evaluate r.config task)),
            fallbackReason := none},
         stats :=
           recordFailure r.config.stats now task
             (backend task (evaluate r.config task)).error
             (recordDecision r.config.stats now
               {target := .cerebellum,
                assessment := evaluate r.config task,
                isManualOverride := false,
                timestamp := tNow} st),
         backendCalls := 1} := by
      unfold route
      dsimp only
      rw [hu, hen, hav, hf]
      simp [hA]
    rw [hroute]
    exact ⟨fun hcon => Bool.noConfusion hcon, fun _ => ⟨rfl, rfl, hA⟩, hstats _, rfl⟩

/-- Witness for C4: a greeting task under the default configuration with
an always-failing backend, on a fresh stats state. -/
theorem claim_C4_witness :
    ((route fallbackRouter failingBackend "t1" 0 greetingTask
        freshState).result.target = .cerebrum ∧
      (route fallbackRouter failingBackend "t1" 0 greetingTask
        freshState).result.fallbackReason =
        (failingBackend greetingTask
          (evaluate fallbackRouter.config greetingTask)).error ∧
      ((route fallbackRouter failingBackend "t1" 0 greetingTask
        freshState).result.fallbackReason).isSome = true) ∧
    (currentData "t1" (route fallbackRouter failingBackend "t1" 0 greetingTask
        freshState).stats).failedRequests =
      (currentData "t1" freshState).failedRequests + 1 ∧
    (route fallbackRouter failingBackend "t1" 0 greetingTask
        freshState).backendCalls = 1 := by
  have h := claim_C4 fallbackRouter failingBackend "t1" 0 greetingTask
    freshState (by decide) rfl rfl (fun _ _ => rfl) rfl rfl
  exact ⟨h.1 rfl, h.2.2.1, h.2.2.2⟩

/-- `generate` always satisfies the response invariant: failures carry
empty text and a present error, successes carry no error. -/
theorem generate_respOk (env : KernelEnv) (cfg : CerebellumConfig)
    (prompt : String) (systemPrompt : Option String) (options : GenOptions) :
    respOk (generate env cfg prompt systemPrompt options) := by
  unfold respOk generate
  split_ifs
  · simp
  · simp
  · cases hge : env.genFetch (buildGenRequest cfg prompt systemPrompt options) <;>
      simp

/-- A string with a non-empty left part stays non-empty after
appending. -/
theorem append_ne_empty {s t : String} (h : s ≠ "") : s ++ t ≠ "" := by
  intro he
  apply h
  have hlen : s.length + t.length = 0 := by
    have hl := congrArg String.length he
    rwa [String.length_append] at hl
  have hs : s.length = 0 := by omega
  cases s with
  | mk a =>
    cases a with
    | nil => rfl
    | cons c cs => simp [String.length] at hs

/-- C9 (amended): every response of `generate` — and of `quickAnswer`,
`summarize` and `convertFormat`, which delegate to it — has empty text
and a present error on failure, and no error on success; the error
string is moreover non-empty whenever the environment never throws an
exception with an empty message (the catch branch copies the thrown
message verbatim, so an empty thrown message yields an empty error
string). -/
theorem claim_C9_amended (env : KernelEnv) (cfg : CerebellumConfig)
    (prompt question text content : String) (systemPrompt : Option String)
    (options : GenOptions) (maxLength : Option Nat) (fmt : ConvFormat) :
    respOk (generate env cfg prompt systemPrompt options) ∧
    respOk (quickAnswer env cfg question) ∧
    respOk (summarize env cfg text maxLength) ∧
    respOk (convertFormat env cfg content fmt) ∧
    (thrownNonEmpty env →
      (generate env cfg prompt systemPrompt options).error ≠ some "") := by
  refine ⟨generate_respOk env cfg prompt systemPrompt options,
    generate_respOk env cfg question _ _,
    generate_respOk env cfg _ none _,
    generate_respOk env cfg _ none _, ?_⟩
  intro hne
  unfold generate
  split_ifs
  · intro hcon
    exact absurd (Option.some.inj hcon) (by decide)
  · intro hcon
    exact append_ne_empty
      (append_ne_empty (append_ne_empty (append_ne_empty (by decide))))
      (Option.some.inj hcon)
  · cases hge : env.genFetch (buildGenRequest cfg prompt systemPrompt options) with
    | httpError body =>
      intro hcon
      exact append_ne_empty (by decide) (Option.some.inj hcon)
    | thrown message =>
      intro hcon
      exact hne _ _ hge (Option.some.inj hcon)
    | ok data => simp

/-- Witness for C9 (amended): with the service down, all four operations
fail with empty text and a present, non-empty error. -/
theorem claim_C9_witness :
    respOk (generate downEnv defaultConfig "hi" none noOpts) ∧
    respOk (quickAnswer downEnv defaultConfig "hi") ∧
    (generate downEnv defaultConfig "hi" none noOpts).error ≠ some "" := by
  have h := claim_C9_amended downEnv defaultConfig "hi" "hi" "hi" "hi" none
    noOpts none ConvFormat.json
  exact ⟨h.1, h.2.1, h.2.2.2.2 (by
    intro req message hgeq
    cases hgeq
    decide)⟩

/-- Counterexample to C9 as stated: when the generate request throws an
exception whose message is empty, the response is a failure with
`error = some ""` — the error string is not non-empty. -/
theorem claim_C9_counterexample :
    (generate emptyThrowEnv defaultConfig "hi" none noOpts).success = false ∧
    (generate emptyThrowEnv defaultConfig "hi" none noOpts).text = "" ∧
    (generate emptyThrowEnv defaultConfig "hi" none noOpts).error = some "" :=
  ⟨rfl, rfl, rfl⟩

end OpenClawPlus
